import Mathlib

/-!
Verification model of the Algorhythm backend statistical engine.

The Python sources are shallowly embedded as follows: float arithmetic that is
closed over the rationals is modelled over `ℚ`, while computations involving
square roots or exponentials (standard deviations, Mahalanobis distance,
similarity decay) are modelled over `ℝ`.  Python `round(x, k)` is modelled as
rounding half-up on the exact value (`roundDec`).  Calls into the statistics
libraries (sklearn StandardScaler / IsolationForest / PCA, numpy matrix
inversion) are modelled through an explicit record of deterministic library
primitives (`StatsLib`), matching the capability interfaces the specification
assigns to them; every theorem quantifies over this record.
-/

namespace Algorhythm

/-- The nine continuous audio features, in the order fixed by
`dna_builder.DNA_FEATURES`. -/
def dnaFeatures : Fin 9 → String :=
  !["danceability", "energy", "loudness", "speechiness",
    "acousticness", "instrumentalness", "liveness", "valence", "tempo"]

/-- Python `round(x, k)`: rounding to `k` decimal places, modelled half-up on
exact real values. -/
noncomputable def roundDec (k : ℕ) (x : ℝ) : ℝ := (round (x * 10 ^ k) : ℝ) / 10 ^ k

/-- Rational version of `roundDec`, used to evaluate roundings at concrete
rational inputs. -/
def roundDecQ (k : ℕ) (q : ℚ) : ℚ := (round (q * 10 ^ k) : ℚ) / 10 ^ k

/-- The Python idiom `max(0, min(1, x))` used by the scorer. -/
noncomputable def clamp01 (x : ℝ) : ℝ := max 0 (min 1 x)

/-- One track row of the working DataFrame (`fetcher.py` always provides the
nine continuous features plus the categorical key/mode columns and display
metadata). -/
structure Track where
  name : String
  artist : String
  id : String
  popularity : ℤ
  features : Fin 9 → ℚ
  key : ℤ
  mode : ℤ

/-- Deterministic library primitives behind the heavy statistics calls
(sklearn and numpy).  `isoScoreSamples` takes the ensemble size, the random
seed, the contamination fraction and the training sample and returns the
fitted decision function; `matInv` returns `none` when numpy would raise
`LinAlgError`; `pinv` is the Moore-Penrose fallback. -/
structure StatsLib where
  isoScoreSamples : ℕ → ℕ → ℚ → List (Fin 9 → ℝ) → (Fin 9 → ℝ) → ℝ
  pcaExplainedVariance : ℕ → List (Fin 9 → ℝ) → List ℝ
  matInv : (Fin 9 → Fin 9 → ℝ) → Option (Fin 9 → Fin 9 → ℝ)
  pinv : (Fin 9 → Fin 9 → ℝ) → (Fin 9 → Fin 9 → ℝ)

/-- The fitted anomaly model stored in a descriptor: its hyper-parameters
(including the seed it was fitted with) and its decision function. -/
structure IsolationForestModel where
  nEstimators : ℕ
  randomState : ℕ
  contamination : ℚ
  scoreSamples : (Fin 9 → ℝ) → ℝ

/-- The playlist DNA descriptor built by `dna_builder.build_playlist_dna`. -/
structure Dna where
  playlistName : String
  trackCount : ℕ
  featureColumns : Fin 9 → String
  scalerMean : Fin 9 → ℚ
  scalerScale : Fin 9 → ℝ
  rawMean : Fin 9 → ℚ
  rawStd : Fin 9 → ℝ
  rawMin : Fin 9 → ℚ
  rawMax : Fin 9 → ℚ
  meanVector : Fin 9 → ℝ
  covMatrix : Fin 9 → Fin 9 → ℝ
  invCovMatrix : Fin 9 → Fin 9 → ℝ
  isolationForest : IsolationForestModel
  explainedVariance : List ℝ
  dimsFor90 : ℕ
  corrMatrix : Fin 9 → Fin 9 → ℝ
  keyDistribution : ℤ → ℕ
  modeDistribution : ℤ → ℕ

/-- Column mean of a feature over the sample (pandas `.mean()`). -/
def colMean (df : List Track) (i : Fin 9) : ℚ :=
  (df.map (fun t => t.features i)).sum / df.length

/-- Column minimum (pandas `.min()`; the builder only calls this on samples of
at least three tracks, so the default for the empty list is never reached). -/
def colMin (df : List Track) (i : Fin 9) : ℚ :=
  ((df.map (fun t => t.features i)).min?).getD 0

/-- Column maximum (pandas `.max()`). -/
def colMax (df : List Track) (i : Fin 9) : ℚ :=
  ((df.map (fun t => t.features i)).max?).getD 0

/-- Sample variance with one delta degree of freedom (pandas `.std()` squares
to this). -/
def sampleVar (df : List Track) (i : Fin 9) : ℚ :=
  (df.map (fun t => (t.features i - colMean df i) ^ 2)).sum / ((df.length : ℚ) - 1)

/-- Population variance (sklearn `StandardScaler` uses zero delta degrees of
freedom). -/
def popVar (df : List Track) (i : Fin 9) : ℚ :=
  (df.map (fun t => (t.features i - colMean df i) ^ 2)).sum / df.length

/-- The fitted `StandardScaler` scale: the population standard deviation, with
sklearn substituting 1 for constant features. -/
noncomputable def scalerScaleOf (df : List Track) (i : Fin 9) : ℝ :=
  if popVar df i = 0 then 1 else Real.sqrt ((popVar df i : ℝ))

/-- Applying the fitted scaler to one raw vector: `(x - mean) / scale`. -/
noncomputable def scalerTransform (sMean : Fin 9 → ℚ) (sScale : Fin 9 → ℝ)
    (x : Fin 9 → ℝ) : Fin 9 → ℝ :=
  fun i => (x i - (sMean i : ℝ)) / sScale i

/-- The normalized sample the builder fits its models on. -/
noncomputable def normalizedRows (df : List Track) : List (Fin 9 → ℝ) :=
  df.map (fun t => scalerTransform (colMean df) (scalerScaleOf df) (fun i => (t.features i : ℝ)))

/-- Mean vector in normalized space. -/
noncomputable def normMean (df : List Track) (i : Fin 9) : ℝ :=
  ((normalizedRows df).map (fun v => v i)).sum / df.length

/-- Normalized-space sample covariance (pandas `.cov()`, one delta degree of
freedom). -/
noncomputable def normCov (df : List Track) (i j : Fin 9) : ℝ :=
  ((normalizedRows df).map
    (fun v => (v i - normMean df i) * (v j - normMean df j))).sum / ((df.length : ℝ) - 1)

/-- Regularized covariance: `cov + 1e-6 * I`. -/
noncomputable def regCov (df : List Track) (i j : Fin 9) : ℝ :=
  normCov df i j + (if i = j then (1e-6 : ℝ) else 0)

/-- Normalized-space correlation matrix (pandas `.corr()`). -/
noncomputable def normCorr (df : List Track) (i j : Fin 9) : ℝ :=
  normCov df i j / (Real.sqrt (normCov df i i) * Real.sqrt (normCov df j j))

/-- `np.cumsum` on a list. -/
def cumsum (l : List ℝ) : List ℝ := (l.scanl (· + ·) 0).tail

/-- Number of entries of the list strictly below `v`; on a sorted list this is
exactly `np.searchsorted(l, v)` with its default left side. -/
noncomputable def countBelow (v : ℝ) (l : List ℝ) : ℕ :=
  l.foldr (fun a acc => if a < v then acc + 1 else acc) 0

/-- Count of a value in a list of integers (pandas `value_counts`, read as the
tally function of the distribution dictionary). -/
def valueCounts (l : List ℤ) : ℤ → ℕ := fun k => l.count k

/-- `dna_builder.build_playlist_dna`: builds the playlist DNA from the sample,
or returns the explicit insufficient-samples error value for fewer than three
tracks.  The isolation forest is fitted with the literal hyper-parameters of
the source: contamination 0.1, random seed 42, 100 estimators. -/
noncomputable def build_playlist_dna (lib : StatsLib) (df : List Track)
    (playlistName : String) : Except String Dna :=
  if df.length < 3 then
    .error ("Need at least 3 tracks to build DNA. Got " ++ toString df.length ++ ".")
  else
    let normalized := normalizedRows df
    .ok
      { playlistName := playlistName
        trackCount := df.length
        featureColumns := dnaFeatures
        scalerMean := colMean df
        scalerScale := scalerScaleOf df
        rawMean := colMean df
        rawStd := fun i => Real.sqrt ((sampleVar df i : ℝ))
        rawMin := colMin df
        rawMax := colMax df
        meanVector := normMean df
        covMatrix := regCov df
        invCovMatrix := (lib.matInv (regCov df)).getD (lib.pinv (regCov df))
        isolationForest :=
          { nEstimators := 100
            randomState := 42
            contamination := 1 / 10
            scoreSamples := lib.isoScoreSamples 100 42 (1 / 10) normalized }
        explainedVariance := lib.pcaExplainedVariance (min 9 (df.length - 1)) normalized
        dimsFor90 :=
          countBelow 0.90 (cumsum (lib.pcaExplainedVariance (min 9 (df.length - 1)) normalized)) + 1
        corrMatrix := normCorr df
        keyDistribution := valueCounts (df.map Track.key)
        modeDistribution := valueCounts (df.map Track.mode) }

/-! ## Scorer (`scorer.py`) -/

/-- The structured report returned by `scorer.score_song`. -/
structure ScoreReport where
  song : String
  artist : String
  playlist : String
  cosineSimilarity : ℝ
  mahalanobisFit : ℝ
  isolationScore : ℝ
  composite : ℝ
  verdict : String

/-- `scipy.spatial.distance.cosine`: one minus the cosine similarity of the
two raw vectors. -/
noncomputable def cosineDist (u v : Fin 9 → ℝ) : ℝ :=
  1 - (∑ i, u i * v i) / Real.sqrt ((∑ i, u i ^ 2) * (∑ i, v i ^ 2))

/-- `scipy.spatial.distance.mahalanobis` with the descriptor inverse
covariance. -/
noncomputable def mahaDist (x μ : Fin 9 → ℝ) (vi : Fin 9 → Fin 9 → ℝ) : ℝ :=
  Real.sqrt (∑ i, ∑ j, (x i - μ i) * vi i j * (x j - μ j))

/-- The three-way verdict of `scorer.score_song` step 6. -/
noncomputable def verdictOf (composite : ℝ) : String :=
  if 0.60 ≤ composite then "✅ ADD"
  else if 0.40 ≤ composite then "🟡 MAYBE"
  else "❌ REJECT"

/-- `scorer.score_song`: scores one candidate raw feature vector against a
DNA descriptor.  Missing dictionary entries already default to 0 upstream, so
the candidate is just its nine-dimensional raw vector. -/
noncomputable def score_song (song : Fin 9 → ℝ) (songName songArtist : String)
    (dna : Dna) : ScoreReport :=
  let normalizedSong := scalerTransform dna.scalerMean dna.scalerScale song
  let rawMeanR : Fin 9 → ℝ := fun i => (dna.rawMean i : ℝ)
  let cosineScore := roundDec 4 (clamp01 (1 - cosineDist song rawMeanR))
  let maha := mahaDist normalizedSong dna.meanVector dna.invCovMatrix
  let mahaScore := roundDec 4 (Real.exp (-(maha ^ 2) / (2 * 9)))
  let isoRaw := dna.isolationForest.scoreSamples normalizedSong
  let isoScore := roundDec 4 (clamp01 ((isoRaw + 0.70) / 0.40))
  let composite :=
    roundDec 4 (0.30 * cosineScore + 0.45 * mahaScore + 0.25 * isoScore)
  { song := songName
    artist := songArtist
    playlist := dna.playlistName
    cosineSimilarity := cosineScore
    mahalanobisFit := mahaScore
    isolationScore := isoScore
    composite := composite
    verdict := verdictOf composite }

/-! ## Cohesion and Conviction Reporter (`main.py`, `/build-dna` endpoint) -/

/-- The hard-coded `FEATURE_RANGES` table of `main.py`. -/
def featureRange : Fin 9 → ℚ := ![1, 1, 60, 1, 1, 1, 1, 1, 200]

/-- The hard-coded `baselines` table of `main.py`. -/
def baselineValue : Fin 9 → ℚ := ![0.55, 0.55, -8, 0.08, 0.30, 0.10, 0.18, 0.45, 120]

/-- Per-feature tightness: `max(0.0, 1.0 - (std / natural_range) * 3)`. -/
noncomputable def tightnessScore (d : Dna) (i : Fin 9) : ℝ :=
  max 0 (1 - d.rawStd i / (featureRange i : ℝ) * 3)

/-- Per-feature identity: `min(|mean - baseline| / natural_range * 2.5, 1.0)`. -/
noncomputable def identityScore (d : Dna) (i : Fin 9) : ℝ :=
  min (|(d.rawMean i : ℝ) - (baselineValue i : ℝ)| / (featureRange i : ℝ) * 2.5) 1

/-- Per-feature conviction: the stronger of tightness and identity. -/
noncomputable def convictionScore (d : Dna) (i : Fin 9) : ℝ :=
  max (tightnessScore d i) (identityScore d i)

/-- One entry of the `conviction_details` list built by the endpoint; the
stored values are rounded to three decimals. -/
structure ConvictionDetail where
  feature : String
  tightness : ℝ
  identityVal : ℝ
  conviction : ℝ

/-- The `conviction_details` list of `main.py`. -/
noncomputable def conviction_details (d : Dna) : List ConvictionDetail :=
  (List.finRange 9).map fun i =>
    { feature := dnaFeatures i
      tightness := roundDec 3 (tightnessScore d i)
      identityVal := roundDec 3 (identityScore d i)
      conviction := roundDec 3 (convictionScore d i) }

/-- The reported cohesion score:
`round(np.mean([c["conviction"] for c in conviction_details]) * 100, 1)`. -/
noncomputable def cohesion_score (d : Dna) : ℝ :=
  roundDec 1
    (((conviction_details d).map ConvictionDetail.conviction).sum /
      ((conviction_details d).map ConvictionDetail.conviction).length * 100)

/-- Modelled from the claim wording of C7: the mean over the nine features of
the (unrounded) conviction values, times 100, rounded to one decimal. -/
noncomputable def cohesionOfClaim (d : Dna) : ℝ :=
  roundDec 1 ((∑ i, convictionScore d i) / 9 * 100)

/-! ## Session layer (`main.py` global `active_session` and its endpoints) -/

/-- The successful payload of `fetcher.fetch_playlist_data`. -/
structure FetchedPlaylist where
  playlistId : String
  playlistName : String
  data : List Track

/-- The process-wide mutable session of `main.py`. -/
structure Session where
  playlistId : Option String
  playlistName : Option String
  data : Option (List Track)
  dna : Option Dna

/-- The initial `active_session` dictionary: every field `None`. -/
def initialSession : Session :=
  { playlistId := none, playlistName := none, data := none, dna := none }

/-- The playlist name the `/build-dna` endpoint passes to the builder. -/
def sessionName (s : Session) : String := s.playlistName.getD "Unknown"

/-- A raised `HTTPException`: status code and detail message. -/
structure HttpError where
  status : ℕ
  detail : String

/-- The body returned by a successful `/exclude` call (track records omitted). -/
structure ExcludeResponse where
  playlistName : Option String
  excludedCount : ℕ
  remainingCount : ℕ

/-- `/analyze`: on fetch success the session is replaced wholesale and the DNA
is reset; on fetch error the session is left untouched. -/
def analyze_playlist (s : Session) (fetch : Except String FetchedPlaylist) : Session :=
  match fetch with
  | .error _ => s
  | .ok r =>
      { playlistId := some r.playlistId
        playlistName := some r.playlistName
        data := some r.data
        dna := none }

/-- The first requested position outside `1..n`, if any — the validation loop
of `/exclude` raises at exactly this element. -/
def firstInvalidPos (n : ℕ) (ps : List ℤ) : Option ℤ :=
  ps.find? fun p => decide (p < 1 ∨ (n : ℤ) < p)

/-- Dropping the rows whose 1-indexed position occurs in the request. -/
def dropPositions (df : List Track) (ps : List ℤ) : List Track :=
  (df.enum.filter fun x => decide (¬ ((x.1 : ℤ) + 1) ∈ ps)).map fun x => x.2

/-- `/exclude`: validates every position before any removal; an invalid
position raises a 400 naming it and leaves the session untouched, a missing
active playlist raises a 404. -/
def exclude_tracks (s : Session) (ps : List ℤ) :
    Except HttpError ExcludeResponse × Session :=
  match s.data with
  | none => (.error ⟨404, "No active playlist. Run /analyze first."⟩, s)
  | some df =>
      match firstInvalidPos df.length ps with
      | some p =>
          (.error ⟨400, "Position " ++ toString p ++ " is out of range. Valid: 1-" ++
            toString df.length⟩, s)
      | none =>
          let filtered := dropPositions df ps
          (.ok
            { playlistName := s.playlistName
              excludedCount := df.length - filtered.length
              remainingCount := filtered.length },
            { s with data := some filtered, dna := none })

/-- `/build-dna`: builds the DNA from the current data; the session is only
mutated when the build succeeds. -/
noncomputable def build_dna (lib : StatsLib) (s : Session) : Session :=
  match s.data with
  | none => s
  | some df =>
      match build_playlist_dna lib df (sessionName s) with
      | .error _ => s
      | .ok d => { s with dna := some d }

/-- The four session operations of `main.py`, each carrying the outcome of its
external fetches. -/
inductive SessionOp where
  | analyze (fetch : Except String FetchedPlaylist)
  | exclude (positions : List ℤ)
  | buildDna
  | score (fetch : Except String (Fin 9 → ℚ))

/-- One request against the session. -/
noncomputable def sessionStep (lib : StatsLib) (s : Session) : SessionOp → Session
  | .analyze f => analyze_playlist s f
  | .exclude ps => (exclude_tracks s ps).2
  | .buildDna => build_dna lib s
  | .score _ => s

/-- Running a sequence of requests from process start. -/
noncomputable def runSession (lib : StatsLib) (ops : List SessionOp) : Session :=
  ops.foldl (sessionStep lib) initialSession

/-- The stored descriptor is absent or was built from exactly the current
track set (with the current session name). -/
def DnaFresh (lib : StatsLib) (s : Session) : Prop :=
  s.dna = none ∨
    ∃ df d, s.data = some df ∧ s.dna = some d ∧
      build_playlist_dna lib df (sessionName s) = .ok d

/-! ## Neighborhood Crawler (`neighborhood.py`, `build_artist_neighborhood`) -/

/-- An artist object as returned by the metadata provider. -/
structure RawArtist where
  id : String
  name : String
  genres : List String
  popularity : ℤ
  followers : ℤ
  image : Option String
deriving DecidableEq

/-- One surviving neighbor candidate, with the query that surfaced it and its
relevance score (stored rounded to three decimals, as in the source). -/
structure Candidate where
  id : String
  name : String
  genres : List String
  popularity : ℤ
  followers : ℤ
  image : Option String
  matchedGenre : String
  relevanceScore : ℚ
deriving DecidableEq

/-- The static `genre_keywords` adjacency table. -/
def genreKeywords (g : String) : List String :=
  if g = "rap" then ["hip hop", "trap", "r&b"]
  else if g = "pop" then ["dance pop", "electropop", "indie pop"]
  else if g = "rock" then ["alternative rock", "indie rock", "punk"]
  else if g = "hip hop" then ["rap", "trap", "conscious hip hop"]
  else if g = "r&b" then ["neo soul", "contemporary r&b", "hip hop"]
  else if g = "trap" then ["rap", "hip hop", "drill"]
  else if g = "indie" then ["alternative", "indie rock", "indie pop"]
  else []

/-- A genre search query string. -/
def genreQuery (g : String) : String := "genre:\"" ++ g ++ "\""

/-- Order-preserving first-occurrence deduplication of the query list. -/
def uniquePreserve (l : List String) : List String :=
  l.foldl (fun acc q => if q ∈ acc then acc else acc ++ [q]) []

/-- Number of distinct genres shared with the root
(`len(set(a_genres) & set(genres))`). -/
def genreOverlap (aGenres rootGenres : List String) : ℕ :=
  (aGenres.dedup.filter fun g => decide (g ∈ rootGenres)).length

/-- The relevance blend: 0.6 times genre overlap ratio plus 0.4 times
popularity proximity. -/
def relevanceOf (rootGenres : List String) (rootPop : ℤ) (a : RawArtist) : ℚ :=
  let genreScore : ℚ := (genreOverlap a.genres rootGenres : ℚ) / (max rootGenres.length 1 : ℚ)
  let popDistance : ℚ := (|a.popularity - rootPop| : ℤ) / 100
  genreScore * 0.6 + (1 - popDistance) * 0.4

/-- Crawl state: the seen-identifier set and the accumulated candidates. -/
structure CrawlState where
  seen : List String
  found : List Candidate

/-- Processing one artist of one result page: skip if already seen, mark
seen, skip if popularity is below 10, otherwise append a candidate. -/
def processArtist (rootGenres : List String) (rootPop : ℤ) (query : String)
    (st : CrawlState) (a : RawArtist) : CrawlState :=
  if a.id ∈ st.seen then st
  else
    let seen := a.id :: st.seen
    if a.popularity < 10 then { seen := seen, found := st.found }
    else
      { seen := seen
        found := st.found ++
          [{ id := a.id
             name := a.name
             genres := a.genres
             popularity := a.popularity
             followers := a.followers
             image := a.image
             matchedGenre := (query.replace "genre:\"" "").replace "\"" ""
             relevanceScore := roundDecQ 3 (relevanceOf rootGenres rootPop a) }] }

/-- Processing one search query: a provider failure is skipped. -/
def processQuery (search : String → Option (List RawArtist)) (rootGenres : List String)
    (rootPop : ℤ) (st : CrawlState) (query : String) : CrawlState :=
  match search query with
  | none => st
  | some items => items.foldl (processArtist rootGenres rootPop query) st

/-- The neighborhood graph returned to the caller. -/
structure Neighborhood where
  root : RawArtist
  neighbors : List Candidate
  totalFound : ℕ

/-- The genre list used for query construction, with the artist-name fallback
when the root has no genres. -/
def rootGenresOf (root : RawArtist) : List String :=
  if root.genres = [] then [root.name.toLower] else root.genres

/-- The deduplicated, order-preserving multi-strategy query list. -/
def queriesOf (root : RawArtist) : List String :=
  uniquePreserve
    (((rootGenresOf root).take 3).map genreQuery ++ [root.name] ++
      (((rootGenresOf root).take 2).map fun g => (genreKeywords g).map genreQuery).flatten)

/-- The crawl state after folding every query page, starting from the seen
set holding only the root identifier. -/
def crawlStateOf (root : RawArtist) (search : String → Option (List RawArtist)) :
    CrawlState :=
  (queriesOf root).foldl (processQuery search (rootGenresOf root) root.popularity)
    { seen := [root.id], found := [] }

/-- The crawl for a resolved root: fold the provider pages through the crawl
state, sort by relevance descending, truncate, and re-sort the kept
candidates by popularity distance. -/
def neighborhoodOf (root : RawArtist) (search : String → Option (List RawArtist))
    (maxArtists : ℕ) : Neighborhood :=
  let cands := (crawlStateOf root search).found.mergeSort fun a b =>
    decide (b.relevanceScore ≤ a.relevanceScore)
  let kept := cands.take maxArtists
  let neighbors := kept.mergeSort fun a b =>
    decide (|a.popularity - root.popularity| ≤ |b.popularity - root.popularity|)
  { root := root, neighbors := neighbors, totalFound := neighbors.length }

/-- `neighborhood.build_artist_neighborhood`: root resolution failure is
fatal for the call. -/
def build_artist_neighborhood (fetchRoot : Except String RawArtist)
    (search : String → Option (List RawArtist)) (maxArtists : ℕ) :
    Except String Neighborhood :=
  match fetchRoot with
  | .error e => .error ("Failed to fetch artist: " ++ e)
  | .ok root => .ok (neighborhoodOf root search maxArtists)

/-! ## Sonic Twin Matcher (`neighborhood.py`, `find_sonic_twins`) -/

/-- One audio-feature record returned by the feature provider, keyed by the
`href` it carries. -/
structure FeatEntry where
  href : String
  feats : Fin 9 → ℚ

/-- A closest-track record inside a twin entry. -/
structure TwinTrackRef where
  name : String
  distance : ℝ

/-- One ranked twin. -/
structure TwinEntry where
  artistId : String
  artistName : String
  genres : List String
  popularity : ℤ
  image : Option String
  avgDistance : ℝ
  minDistance : ℝ
  similarityPct : ℝ
  tracksAnalyzed : ℕ
  closestTracks : List TwinTrackRef

/-- Euclidean distance in the raw nine-dimensional feature space
(`np.linalg.norm(target_vector - feat_vector)`). -/
noncomputable def euclidDist (u v : Fin 9 → ℝ) : ℝ :=
  Real.sqrt (∑ i, (u i - v i) ^ 2)

/-- Average distance of the representative vectors to the target
(`np.mean(distances)`). -/
noncomputable def avgDistanceOf (target : Fin 9 → ℝ) (feats : List (Fin 9 → ℝ)) : ℝ :=
  (feats.map (euclidDist target)).sum / (feats.map (euclidDist target)).length

/-- The similarity percentage: `round(np.exp(-avg_distance / 100) * 100, 2)`. -/
noncomputable def similarityPctOf (avg : ℝ) : ℝ :=
  roundDec 2 (Real.exp (-avg / 100) * 100)

/-- Casting a provider feature vector into the real feature space. -/
def castVec (q : Fin 9 → ℚ) (i : Fin 9) : ℝ := (q i : ℝ)

/-- The final path segment of an `href` (`spotify_url.split("/")[-1]`). -/
def lastSegment (s : String) : String := (s.splitOn "/").getLastD ""

/-- Looking up the display name of a feature record among the fetched top
tracks; `"Unknown"` when no id matches. -/
def trackNameFor (tracks : List (String × String)) (href : String) : String :=
  match tracks.filter fun t => decide (t.1 = lastSegment href) with
  | [] => "Unknown"
  | t :: _ => t.2

/-- The twin entry computed for one processed neighbor. -/
noncomputable def twinEntryFor (target : Fin 9 → ℝ) (a : Candidate)
    (tracks : List (String × String)) (content : List FeatEntry) : TwinEntry :=
  let featVecs := content.map fun f => castVec f.feats
  let distances := featVecs.map (euclidDist target)
  let avg := avgDistanceOf target featVecs
  let trackRefs := content.map fun f =>
    TwinTrackRef.mk (trackNameFor tracks f.href) (roundDec 4 (euclidDist target (castVec f.feats)))
  { artistId := a.id
    artistName := a.name
    genres := a.genres
    popularity := a.popularity
    image := a.image
    avgDistance := roundDec 4 avg
    minDistance := roundDec 4 ((distances.min?).getD 0)
    similarityPct := similarityPctOf avg
    tracksAnalyzed := content.length
    closestTracks := (trackRefs.mergeSort fun x y => decide (x.distance ≤ y.distance)).take 3 }

/-- Processing one neighbor: take its top five tracks and their feature
records; any provider failure or empty result skips the neighbor. -/
noncomputable def processNeighbor (target : Fin 9 → ℝ)
    (topTracks : String → Option (List (String × String)))
    (batchFeats : List String → Option (List FeatEntry)) (a : Candidate) :
    Option TwinEntry :=
  match topTracks a.id with
  | none => none
  | some ts =>
      let tracks := ts.take 5
      if tracks.isEmpty then none
      else
        match batchFeats (tracks.map Prod.fst) with
        | none => none
        | some content =>
            if content.isEmpty then none
            else some (twinEntryFor target a tracks content)

/-- The ranked result of the matcher. -/
structure TwinsResult where
  targetName : String
  targetArtist : String
  trackId : String
  twins : List TwinEntry
  totalCompared : ℕ

/-- `neighborhood.find_sonic_twins`: target resolution and neighborhood
construction are fatal on failure; an empty neighborhood is an explicit
error; skipped neighbors are silently excluded from the ranking. -/
noncomputable def find_sonic_twins (trackInfo : Except String (String × String))
    (targetFeats : Except String (Fin 9 → ℚ)) (fetchRoot : Except String RawArtist)
    (search : String → Option (List RawArtist))
    (topTracks : String → Option (List (String × String)))
    (batchFeats : List String → Option (List FeatEntry))
    (trackId : String) (topN : ℕ) : Except String TwinsResult :=
  match trackInfo with
  | .error e => .error ("Failed to fetch track: " ++ e)
  | .ok ta =>
      match targetFeats with
      | .error e => .error e
      | .ok tf =>
          match build_artist_neighborhood fetchRoot search 20 with
          | .error e => .error ("Failed to build neighborhood: " ++ e)
          | .ok nb =>
              if nb.neighbors.isEmpty then
                .error "No neighboring artists found for comparison"
              else
                let artistDistances :=
                  nb.neighbors.filterMap (processNeighbor (castVec tf) topTracks batchFeats)
                let ranked := artistDistances.mergeSort fun x y =>
                  decide (x.avgDistance ≤ y.avgDistance)
                .ok
                  { targetName := ta.1
                    targetArtist := ta.2
                    trackId := trackId
                    twins := ranked.take topN
                    totalCompared := artistDistances.length }

/-! ## Basic lemmas about rounding and clamping -/

theorem round_le_round {x y : ℝ} (h : x ≤ y) : round x ≤ round y := by
  rw [round_eq, round_eq]
  exact Int.floor_le_floor (by linarith)

theorem roundDec_nonneg {k : ℕ} {x : ℝ} (hx : 0 ≤ x) : 0 ≤ roundDec k x := by
  unfold roundDec
  have h1 : (0 : ℤ) ≤ round (x * 10 ^ k) := by
    have h0 : (0 : ℝ) ≤ x * 10 ^ k := by positivity
    have h2 := round_le_round h0
    rwa [show round (0 : ℝ) = 0 from round_zero] at h2
  have h2 : (0 : ℝ) ≤ (round (x * 10 ^ k) : ℝ) := by exact_mod_cast h1
  positivity

theorem roundDec_le_one {k : ℕ} {x : ℝ} (hx : x ≤ 1) : roundDec k x ≤ 1 := by
  unfold roundDec
  have h1 : round (x * 10 ^ k) ≤ round ((10 : ℝ) ^ k) := by
    apply round_le_round
    have hpow : (0 : ℝ) < 10 ^ k := by positivity
    nlinarith
  have h2 : round ((10 : ℝ) ^ k) = (10 : ℤ) ^ k := by
    have hcast : ((10 : ℝ) ^ k) = (((10 : ℤ) ^ k : ℤ) : ℝ) := by push_cast; ring
    rw [hcast, round_intCast]
  have h3 : (round (x * 10 ^ k) : ℝ) ≤ (10 : ℝ) ^ k := by
    rw [h2] at h1
    calc (round (x * 10 ^ k) : ℝ) ≤ (((10 : ℤ) ^ k : ℤ) : ℝ) := by exact_mod_cast h1
    _ = (10 : ℝ) ^ k := by push_cast; ring
  have hpow : (0 : ℝ) < 10 ^ k := by positivity
  rw [div_le_one hpow]
  exact h3

theorem clamp01_nonneg (x : ℝ) : 0 ≤ clamp01 x := le_max_left 0 _

theorem clamp01_le_one (x : ℝ) : clamp01 x ≤ 1 :=
  max_le (by norm_num) (min_le_left 1 x)

/-- C1: for every finite candidate feature vector and every DNA descriptor,
the four values cosine score, Mahalanobis score, anomaly score and composite
score produced by the scorer all lie in the unit interval. -/
theorem score_song_scores_bounded (song : Fin 9 → ℝ) (songName songArtist : String)
    (dna : Dna) :
    (0 ≤ (score_song song songName songArtist dna).cosineSimilarity ∧
      (score_song song songName songArtist dna).cosineSimilarity ≤ 1) ∧
    (0 ≤ (score_song song songName songArtist dna).mahalanobisFit ∧
      (score_song song songName songArtist dna).mahalanobisFit ≤ 1) ∧
    (0 ≤ (score_song song songName songArtist dna).isolationScore ∧
      (score_song song songName songArtist dna).isolationScore ≤ 1) ∧
    (0 ≤ (score_song song songName songArtist dna).composite ∧
      (score_song song songName songArtist dna).composite ≤ 1) := by
  have hcos : 0 ≤ (score_song song songName songArtist dna).cosineSimilarity ∧
      (score_song song songName songArtist dna).cosineSimilarity ≤ 1 := by
    constructor
    · exact roundDec_nonneg (clamp01_nonneg _)
    · exact roundDec_le_one (clamp01_le_one _)
  have hmaha : 0 ≤ (score_song song songName songArtist dna).mahalanobisFit ∧
      (score_song song songName songArtist dna).mahalanobisFit ≤ 1 := by
    constructor
    · exact roundDec_nonneg (Real.exp_pos _).le
    · apply roundDec_le_one
      rw [Real.exp_le_one_iff]
      have h1 : 0 ≤ (mahaDist (scalerTransform dna.scalerMean dna.scalerScale song)
          dna.meanVector dna.invCovMatrix) ^ 2 := sq_nonneg _
      have h2 : (0 : ℝ) < 2 * 9 := by norm_num
      exact div_nonpos_of_nonpos_of_nonneg (by linarith) (by norm_num)
  have hiso : 0 ≤ (score_song song songName songArtist dna).isolationScore ∧
      (score_song song songName songArtist dna).isolationScore ≤ 1 := by
    constructor
    · exact roundDec_nonneg (clamp01_nonneg _)
    · exact roundDec_le_one (clamp01_le_one _)
  refine ⟨hcos, hmaha, hiso, ?_, ?_⟩
  · apply roundDec_nonneg
    have := hcos.1; have := hmaha.1; have := hiso.1
    simp only [score_song] at *
    nlinarith
  · apply roundDec_le_one
    have := hcos.2; have := hmaha.2; have := hiso.2
    have := hcos.1; have := hmaha.1; have := hiso.1
    simp only [score_song] at *
    nlinarith

/-- C2: the verdict of every score report is ADD exactly when the composite is
at least 0.60, MAYBE exactly when it is in [0.40, 0.60), and REJECT exactly
when it is below 0.40; both boundary values fall in the higher band. -/
theorem score_song_verdict_bands (song : Fin 9 → ℝ) (songName songArtist : String)
    (dna : Dna) :
    ((score_song song songName songArtist dna).verdict = "✅ ADD" ↔
      0.60 ≤ (score_song song songName songArtist dna).composite) ∧
    ((score_song song songName songArtist dna).verdict = "🟡 MAYBE" ↔
      (0.40 ≤ (score_song song songName songArtist dna).composite ∧
        (score_song song songName songArtist dna).composite < 0.60)) ∧
    ((score_song song songName songArtist dna).verdict = "❌ REJECT" ↔
      (score_song song songName songArtist dna).composite < 0.40) := by
  have hv : (score_song song songName songArtist dna).verdict =
      verdictOf (score_song song songName songArtist dna).composite := rfl
  rw [hv]
  set c := (score_song song songName songArtist dna).composite with hc
  unfold verdictOf
  split_ifs with h1 h2
  · refine ⟨⟨fun _ => h1, fun _ => rfl⟩, ?_, ?_⟩
    · constructor
      · intro h; exact absurd h (by decide)
      · rintro ⟨-, hlt⟩; exact absurd h1 (not_le.mpr hlt)
    · constructor
      · intro h; exact absurd h (by decide)
      · intro hlt; exfalso; linarith
  · refine ⟨?_, ⟨fun _ => ⟨h2, lt_of_not_le h1⟩, fun _ => rfl⟩, ?_⟩
    · constructor
      · intro h; exact absurd h (by decide)
      · intro h; exact absurd h h1
    · constructor
      · intro h; exact absurd h (by decide)
      · intro hlt; exfalso; linarith
  · refine ⟨?_, ?_, ⟨fun _ => lt_of_not_le h2, fun _ => rfl⟩⟩
    · constructor
      · intro h; exact absurd h (by decide)
      · intro h; exact absurd h h1
    · constructor
      · intro h; exact absurd h (by decide)
      · rintro ⟨hge, -⟩; exact absurd hge h2

/-! ## Session lemmas and claims C5, C9 -/

theorem exclude_tracks_no_data (s : Session) (ps : List ℤ) (h : s.data = none) :
    exclude_tracks s ps =
      (.error ⟨404, "No active playlist. Run /analyze first."⟩, s) := by
  unfold exclude_tracks
  rw [h]

theorem exclude_tracks_invalid (s : Session) (ps : List ℤ) (df : List Track) (p : ℤ)
    (hd : s.data = some df) (hf : firstInvalidPos df.length ps = some p) :
    exclude_tracks s ps =
      (.error ⟨400, "Position " ++ toString p ++ " is out of range. Valid: 1-" ++
        toString df.length⟩, s) := by
  unfold exclude_tracks
  rw [hd]
  simp only [hf]

theorem exclude_tracks_valid (s : Session) (ps : List ℤ) (df : List Track)
    (hd : s.data = some df) (hf : firstInvalidPos df.length ps = none) :
    exclude_tracks s ps =
      (.ok
        { playlistName := s.playlistName
          excludedCount := df.length - (dropPositions df ps).length
          remainingCount := (dropPositions df ps).length },
        { s with data := some (dropPositions df ps), dna := none }) := by
  unfold exclude_tracks
  rw [hd]
  simp only [hf]

theorem build_dna_no_data (lib : StatsLib) (s : Session) (h : s.data = none) :
    build_dna lib s = s := by
  unfold build_dna
  rw [h]

theorem build_dna_build_error (lib : StatsLib) (s : Session) (df : List Track) (e : String)
    (hd : s.data = some df) (hb : build_playlist_dna lib df (sessionName s) = .error e) :
    build_dna lib s = s := by
  unfold build_dna
  rw [hd]
  simp only [hb]

theorem build_dna_build_ok (lib : StatsLib) (s : Session) (df : List Track) (d : Dna)
    (hd : s.data = some df) (hb : build_playlist_dna lib df (sessionName s) = .ok d) :
    build_dna lib s = { s with dna := some d } := by
  unfold build_dna
  rw [hd]
  simp only [hb]

theorem dnaFresh_step (lib : StatsLib) (s : Session) (op : SessionOp)
    (h : DnaFresh lib s) : DnaFresh lib (sessionStep lib s op) := by
  cases op with
  | analyze f =>
      cases f with
      | error e => exact h
      | ok r => exact Or.inl rfl
  | exclude ps =>
      show DnaFresh lib (exclude_tracks s ps).2
      rcases hd : s.data with - | df
      · rw [exclude_tracks_no_data s ps hd]; exact h
      · rcases hf : firstInvalidPos df.length ps with - | p
        · rw [exclude_tracks_valid s ps df hd hf]
          exact Or.inl rfl
        · rw [exclude_tracks_invalid s ps df p hd hf]
          exact h
  | buildDna =>
      show DnaFresh lib (build_dna lib s)
      rcases hd : s.data with - | df
      · rw [build_dna_no_data lib s hd]; exact h
      · rcases hb : build_playlist_dna lib df (sessionName s) with e | d
        · rw [build_dna_build_error lib s df e hd hb]; exact h
        · rw [build_dna_build_ok lib s df d hd hb]
          exact Or.inr ⟨df, d, hd, rfl, hb⟩
  | score f => exact h

theorem dnaFresh_run (lib : StatsLib) (ops : List SessionOp) :
    DnaFresh lib (runSession lib ops) := by
  have key : ∀ (l : List SessionOp) (s : Session), DnaFresh lib s →
      DnaFresh lib (l.foldl (sessionStep lib) s) := by
    intro l
    induction l with
    | nil => intro s hs; exact hs
    | cons op rest ih => intro s hs; exact ih _ (dnaFresh_step lib s op hs)
  exact key ops initialSession (Or.inl rfl)

/-- C9: an exclusion request containing any out-of-range position returns an
explicit 400 range error naming an offending position and leaves the session
(track set and descriptor) unchanged — never a silent no-op. -/
theorem exclude_tracks_range_check (s : Session) (df : List Track) (ps : List ℤ)
    (hdata : s.data = some df)
    (hbad : ∃ p ∈ ps, p < 1 ∨ (df.length : ℤ) < p) :
    ∃ q ∈ ps, (q < 1 ∨ (df.length : ℤ) < q) ∧
      exclude_tracks s ps =
        (.error ⟨400, "Position " ++ toString q ++ " is out of range. Valid: 1-" ++
          toString df.length⟩, s) := by
  have hsome : (firstInvalidPos df.length ps).isSome := by
    rw [firstInvalidPos, List.find?_isSome]
    obtain ⟨p, hp, hbadp⟩ := hbad
    exact ⟨p, hp, by simpa using hbadp⟩
  obtain ⟨q, hq⟩ := Option.isSome_iff_exists.mp hsome
  have hqmem : q ∈ ps := List.mem_of_find?_eq_some hq
  have hqpred := List.find?_some hq
  refine ⟨q, hqmem, by simpa using hqpred, ?_⟩
  exact exclude_tracks_invalid s ps df q hdata hq

/-- A concrete track used by witnesses. -/
def exTrack : Track :=
  { name := "t", artist := "a", id := "i", popularity := 0,
    features := fun _ => 0, key := 0, mode := 0 }

/-- A concrete two-track session used by the C9 witness. -/
def exSession : Session :=
  { playlistId := some "pid", playlistName := some "P",
    data := some [exTrack, exTrack], dna := none }

/-- C5: after every sequence of session operations from process start, the
stored DNA descriptor is either absent or was built from exactly the current
track set — loading a new playlist and every successful exclusion clear the
descriptor — so a candidate is never scored against a descriptor built from a
track set that has since changed. -/
theorem session_dna_consistency :
    (∀ (lib : StatsLib) (ops : List SessionOp), DnaFresh lib (runSession lib ops)) ∧
    (∀ (s : Session) (r : FetchedPlaylist), (analyze_playlist s (.ok r)).dna = none) ∧
    (∀ (s : Session) (ps : List ℤ) (out : ExcludeResponse) (s2 : Session),
      exclude_tracks s ps = (.ok out, s2) → s2.dna = none) := by
  refine ⟨dnaFresh_run, fun s r => rfl, ?_⟩
  intro s ps out s2 h
  rcases hd : s.data with - | df
  · rw [exclude_tracks_no_data s ps hd] at h
    simp at h
  · rcases hf : firstInvalidPos df.length ps with - | p
    · rw [exclude_tracks_valid s ps df hd hf] at h
      simp only [Prod.mk.injEq] at h
      rw [← h.2]
    · rw [exclude_tracks_invalid s ps df p hd hf] at h
      simp at h

theorem session_dna_consistency_witness :
    DnaFresh testLib (runSession testLib []) ∧
    (analyze_playlist exSession (.ok ⟨"pid2", "Q", [exTrack]⟩)).dna = none ∧
    ∃ out s2, exclude_tracks exSession [(1 : ℤ)] = (.ok out, s2) ∧ s2.dna = none := by
  refine ⟨session_dna_consistency.1 testLib [], session_dna_consistency.2.1 exSession _, ?_⟩
  have hdata : exSession.data = some [exTrack, exTrack] := rfl
  have hf : firstInvalidPos (2 : ℕ) [(1 : ℤ)] = none := by decide
  have h := exclude_tracks_valid exSession [(1 : ℤ)] [exTrack, exTrack] hdata hf
  exact ⟨_, _, h, session_dna_consistency.2.2 exSession [(1 : ℤ)] _ _ h⟩

theorem exclude_tracks_range_check_witness :
    ∃ q ∈ [(5 : ℤ)], (q < 1 ∨ ((2 : ℕ) : ℤ) < q) ∧
      exclude_tracks exSession [(5 : ℤ)] =
        (.error ⟨400, "Position " ++ toString q ++ " is out of range. Valid: 1-" ++
          toString (2 : ℕ)⟩, exSession) := by
  have hbad : ∃ p ∈ [(5 : ℤ)], p < 1 ∨ (([exTrack, exTrack].length : ℕ) : ℤ) < p := by
    refine ⟨5, by simp, Or.inr ?_⟩
    simp
  have h := exclude_tracks_range_check exSession [exTrack, exTrack] [(5 : ℤ)] rfl hbad
  simpa using h

/-! ## Claims C3 and C4: builder guard and determinism -/

/-- A concrete stand-in library used only to instantiate witnesses. -/
def testLib : StatsLib :=
  { isoScoreSamples := fun _ _ _ _ _ => 0
    pcaExplainedVariance := fun _ _ => []
    matInv := fun _ => none
    pinv := fun m => m }

/-- C3: building from fewer than three feature vectors yields exactly the
insufficient-samples error value (no descriptor fields), and building from at
least three yields a descriptor whose track count is the sample size. -/
theorem build_playlist_dna_sample_guard (lib : StatsLib) (df : List Track)
    (playlistName : String) :
    (df.length < 3 →
      build_playlist_dna lib df playlistName =
        .error ("Need at least 3 tracks to build DNA. Got " ++ toString df.length ++ ".")) ∧
    (3 ≤ df.length →
      ∃ d, build_playlist_dna lib df playlistName = .ok d ∧ d.trackCount = df.length) := by
  constructor
  · intro h
    unfold build_playlist_dna
    rw [if_pos h]
  · intro h
    unfold build_playlist_dna
    rw [if_neg (not_lt.mpr h)]
    exact ⟨_, rfl, rfl⟩

theorem build_playlist_dna_sample_guard_witness :
    (build_playlist_dna testLib [exTrack, exTrack] "P" =
      .error ("Need at least 3 tracks to build DNA. Got " ++ toString (2 : ℕ) ++ ".")) ∧
    (∃ d, build_playlist_dna testLib [exTrack, exTrack, exTrack] "P" = .ok d ∧
      d.trackCount = 3) := by
  constructor
  · exact (build_playlist_dna_sample_guard testLib [exTrack, exTrack] "P").1 (by simp)
  · have h := (build_playlist_dna_sample_guard testLib [exTrack, exTrack, exTrack] "P").2
      (by simp)
    simpa using h

/-- C4: the build pipeline is a deterministic function of its input — equal
samples and names always give identical descriptors — and the anomaly model of
every built descriptor was fitted with the fixed seed 42 (100 estimators,
contamination 0.1).  In this embedding the randomness of the forest fit is an
explicit seed argument of the library primitive and the builder passes the
literal 42, so determinism is function application. -/
theorem build_playlist_dna_deterministic :
    (∀ (lib : StatsLib) (df₁ df₂ : List Track) (name₁ name₂ : String),
      df₁ = df₂ → name₁ = name₂ →
        build_playlist_dna lib df₁ name₁ = build_playlist_dna lib df₂ name₂) ∧
    (∀ (lib : StatsLib) (df : List Track) (nm : String) (d : Dna),
      build_playlist_dna lib df nm = .ok d →
        d.isolationForest.randomState = 42 ∧ d.isolationForest.nEstimators = 100 ∧
          d.isolationForest.contamination = 1 / 10) := by
  constructor
  · intro lib df₁ df₂ name₁ name₂ h1 h2
    rw [h1, h2]
  · intro lib df nm d h
    by_cases hlen : df.length < 3
    · unfold build_playlist_dna at h
      rw [if_pos hlen] at h
      cases h
    · unfold build_playlist_dna at h
      rw [if_neg hlen] at h
      simp only [Except.ok.injEq] at h
      rw [← h]
      exact ⟨rfl, rfl, rfl⟩

theorem build_playlist_dna_deterministic_witness :
    build_playlist_dna testLib [exTrack] "Q" = build_playlist_dna testLib [exTrack] "Q" ∧
    ∃ d, build_playlist_dna testLib [exTrack, exTrack, exTrack] "P" = .ok d ∧
      d.isolationForest.randomState = 42 ∧ d.isolationForest.nEstimators = 100 ∧
        d.isolationForest.contamination = 1 / 10 := by
  constructor
  · exact build_playlist_dna_deterministic.1 testLib [exTrack] [exTrack] "Q" "Q" rfl rfl
  · have hok : ∃ d, build_playlist_dna testLib [exTrack, exTrack, exTrack] "P" = .ok d :=
      ⟨_, rfl⟩
    obtain ⟨d, hd⟩ := hok
    exact ⟨d, hd, build_playlist_dna_deterministic.2 testLib _ "P" d hd⟩

/-! ## Claim C6: soundness of the crawled neighbor list -/

/-- Crawl invariant: the root is marked seen, every accumulated candidate is
marked seen, meets the popularity floor and is not the root, and the
accumulated identifiers are pairwise distinct. -/
def crawlInv (rootId : String) (st : CrawlState) : Prop :=
  rootId ∈ st.seen ∧
    (∀ c ∈ st.found, c.id ∈ st.seen ∧ 10 ≤ c.popularity ∧ c.id ≠ rootId) ∧
    (st.found.map Candidate.id).Nodup

theorem processArtist_inv {rootId : String} (rootGenres : List String) (rootPop : ℤ)
    (query : String) (st : CrawlState) (a : RawArtist)
    (h : crawlInv rootId st) :
    crawlInv rootId (processArtist rootGenres rootPop query st a) := by
  obtain ⟨hroot, hmem, hnodup⟩ := h
  unfold processArtist
  by_cases hseen : a.id ∈ st.seen
  · rw [if_pos hseen]
    exact ⟨hroot, hmem, hnodup⟩
  · rw [if_neg hseen]
    by_cases hpop : a.popularity < 10
    · rw [if_pos hpop]
      refine ⟨List.mem_cons_of_mem _ hroot, fun c hc => ?_, hnodup⟩
      obtain ⟨h1, h2, h3⟩ := hmem c hc
      exact ⟨List.mem_cons_of_mem _ h1, h2, h3⟩
    · rw [if_neg hpop]
      refine ⟨List.mem_cons_of_mem _ hroot, ?_, ?_⟩
      · intro c hc
        rcases List.mem_append.mp hc with hc1 | hc2
        · obtain ⟨h1, h2, h3⟩ := hmem c hc1
          exact ⟨List.mem_cons_of_mem _ h1, h2, h3⟩
        · rw [List.mem_singleton] at hc2
          subst hc2
          refine ⟨List.mem_cons_self _ _, le_of_not_lt hpop, ?_⟩
          intro hcontra
          have hcontra2 : a.id = rootId := hcontra
          exact hseen (by rw [hcontra2]; exact hroot)
      · rw [List.map_append]
        refine List.Nodup.append hnodup (List.nodup_singleton _) ?_
        intro x hx1 hx2
        simp only [List.map_cons, List.map_nil, List.mem_singleton] at hx2
        obtain ⟨c, hcmem, hcid⟩ := List.mem_map.mp hx1
        obtain ⟨h1, -, -⟩ := hmem c hcmem
        have hxa : x = a.id := hx2
        exact hseen (by rw [← hxa, ← hcid]; exact h1)

theorem foldl_processArtist_inv {rootId : String} (rootGenres : List String)
    (rootPop : ℤ) (query : String) (items : List RawArtist) :
    ∀ st : CrawlState, crawlInv rootId st →
      crawlInv rootId (items.foldl (processArtist rootGenres rootPop query) st) := by
  induction items with
  | nil => intro st h; exact h
  | cons a rest ih =>
      intro st h
      exact ih _ (processArtist_inv rootGenres rootPop query st a h)

theorem processQuery_inv {rootId : String} (search : String → Option (List RawArtist))
    (rootGenres : List String) (rootPop : ℤ) (st : CrawlState) (query : String)
    (h : crawlInv rootId st) :
    crawlInv rootId (processQuery search rootGenres rootPop st query) := by
  unfold processQuery
  cases search query with
  | none => exact h
  | some items => exact foldl_processArtist_inv rootGenres rootPop query items st h

theorem foldl_processQuery_inv {rootId : String} (search : String → Option (List RawArtist))
    (rootGenres : List String) (rootPop : ℤ) (queries : List String) :
    ∀ st : CrawlState, crawlInv rootId st →
      crawlInv rootId (queries.foldl (processQuery search rootGenres rootPop) st) := by
  induction queries with
  | nil => intro st h; exact h
  | cons q rest ih =>
      intro st h
      exact ih _ (processQuery_inv search rootGenres rootPop st q h)

theorem crawlStateOf_inv (root : RawArtist) (search : String → Option (List RawArtist)) :
    crawlInv root.id (crawlStateOf root search) := by
  unfold crawlStateOf
  refine foldl_processQuery_inv search (rootGenresOf root) root.popularity
    (queriesOf root) _ ?_
  exact ⟨List.mem_singleton_self _, fun c hc => absurd hc (List.not_mem_nil c),
    List.nodup_nil⟩

/-- Properties surviving the sort-truncate-sort presentation pipeline. -/
theorem sortTakeSort_props (l : List Candidate) (m : ℕ)
    (le1 le2 : Candidate → Candidate → Bool) (P : Candidate → Prop)
    (hP : ∀ c ∈ l, P c) (hnodup : (l.map Candidate.id).Nodup) :
    (∀ c ∈ ((l.mergeSort le1).take m).mergeSort le2, P c) ∧
    ((((l.mergeSort le1).take m).mergeSort le2).map Candidate.id).Nodup ∧
    (((l.mergeSort le1).take m).mergeSort le2).length ≤ m := by
  have hperm1 : List.Perm (l.mergeSort le1) l := List.mergeSort_perm l le1
  have hsub : List.Sublist ((l.mergeSort le1).take m) (l.mergeSort le1) := List.take_sublist _ _
  have hperm2 : List.Perm (((l.mergeSort le1).take m).mergeSort le2) ((l.mergeSort le1).take m) :=
    List.mergeSort_perm _ le2
  refine ⟨?_, ?_, ?_⟩
  · intro c hc
    exact hP c (hperm1.mem_iff.mp (hsub.subset (hperm2.mem_iff.mp hc)))
  · have hn1 : ((l.mergeSort le1).map Candidate.id).Nodup :=
      ((hperm1.map Candidate.id).nodup_iff).mpr hnodup
    have hn2 : (((l.mergeSort le1).take m).map Candidate.id).Nodup :=
      List.Nodup.sublist (hsub.map Candidate.id) hn1
    exact ((hperm2.map Candidate.id).nodup_iff).mpr hn2
  · rw [hperm2.length_eq, List.length_take]
    exact min_le_left _ _

/-- C6: for every root artist and every assignment of provider query
responses, the neighbor list contains pairwise distinct identifiers, never
contains the root identifier, contains no entity with popularity below 10,
and has length at most the caller-supplied maximum. -/
theorem build_artist_neighborhood_sound (root : RawArtist)
    (search : String → Option (List RawArtist)) (maxArtists : ℕ) :
    ((neighborhoodOf root search maxArtists).neighbors.map Candidate.id).Nodup ∧
    (∀ c ∈ (neighborhoodOf root search maxArtists).neighbors, c.id ≠ root.id) ∧
    (∀ c ∈ (neighborhoodOf root search maxArtists).neighbors, 10 ≤ c.popularity) ∧
    (neighborhoodOf root search maxArtists).neighbors.length ≤ maxArtists := by
  obtain ⟨-, hmem, hnodup⟩ := crawlStateOf_inv root search
  have hneq : (neighborhoodOf root search maxArtists).neighbors =
      (((crawlStateOf root search).found.mergeSort
        (fun a b => decide (b.relevanceScore ≤ a.relevanceScore))).take maxArtists).mergeSort
        (fun a b =>
          decide (|a.popularity - root.popularity| ≤ |b.popularity - root.popularity|)) := rfl
  have hmain := sortTakeSort_props (crawlStateOf root search).found maxArtists
    (fun a b => decide (b.relevanceScore ≤ a.relevanceScore))
    (fun a b => decide (|a.popularity - root.popularity| ≤ |b.popularity - root.popularity|))
    (fun c => 10 ≤ c.popularity ∧ c.id ≠ root.id)
    (fun c hc => ⟨(hmem c hc).2.1, (hmem c hc).2.2⟩) hnodup
  refine ⟨?_, ?_, ?_, ?_⟩
  · rw [hneq]; exact hmain.2.1
  · intro c hc
    rw [hneq] at hc
    exact (hmain.1 c hc).2
  · intro c hc
    rw [hneq] at hc
    exact (hmain.1 c hc).1
  · rw [hneq]; exact hmain.2.2

/-! ## Claim C7: the reported cohesion score -/

theorem roundDec_ratCast (k : ℕ) (q : ℚ) :
    roundDec k ((q : ℝ)) = ((roundDecQ k q : ℚ) : ℝ) := by
  unfold roundDec roundDecQ
  have h1 : ((q : ℝ)) * 10 ^ k = (((q * 10 ^ k : ℚ)) : ℝ) := by push_cast; ring
  rw [h1, Rat.round_cast]
  push_cast
  ring

/-- The cohesion score as computed by the endpoint equals one tenth-rounding
of the mean of the nine three-decimal-rounded conviction values, times 100. -/
theorem cohesion_score_eq_sum (d : Dna) :
    cohesion_score d = roundDec 1 ((∑ i, roundDec 3 (convictionScore d i)) / 9 * 100) := by
  simp only [cohesion_score, conviction_details, List.map_map, List.length_map,
    List.length_finRange]
  rw [← Fin.sum_univ_def]
  norm_num

/-- The concrete per-feature sample standard deviations of the
counterexample: one third of each natural range. -/
def cxSigma : Fin 9 → ℚ := ![1/3, 1/3, 20, 1/3, 1/3, 1/3, 1/3, 1/3, 200/3]

/-- The concrete per-feature sample means of the counterexample. -/
def cxMean : Fin 9 → ℚ :=
  ![0.58656, 0.55016, -7.9904, 0.08016, 0.30016, 0.10016, 0.18016, 0.45016, 120.032]

/-- A track with the given feature vector. -/
def cxTrackOf (f : Fin 9 → ℚ) : Track :=
  { name := "t", artist := "a", id := "i", popularity := 0,
    features := f, key := 0, mode := 0 }

/-- Three tracks placed symmetrically around the target means so that the
sample mean is `cxMean` and the sample standard deviation is `cxSigma`. -/
def cxTracks : List Track :=
  [cxTrackOf (fun i => cxMean i - cxSigma i), cxTrackOf cxMean,
    cxTrackOf (fun i => cxMean i + cxSigma i)]

theorem cxTracks_colMean (i : Fin 9) : colMean cxTracks i = cxMean i := by
  unfold colMean cxTracks cxTrackOf
  simp
  ring

theorem cxTracks_sampleVar (i : Fin 9) : sampleVar cxTracks i = cxSigma i ^ 2 := by
  unfold sampleVar
  simp only [cxTracks_colMean]
  unfold cxTracks cxTrackOf
  simp
  ring

theorem cxSigma_nonneg (i : Fin 9) : (0 : ℚ) ≤ cxSigma i := by
  fin_cases i <;> norm_num [cxSigma]

theorem cxStd (i : Fin 9) :
    Real.sqrt ((sampleVar cxTracks i : ℝ)) = ((cxSigma i : ℚ) : ℝ) := by
  rw [cxTracks_sampleVar i]
  push_cast
  exact Real.sqrt_sq (by exact_mod_cast cxSigma_nonneg i)

/-- The descriptor built from the counterexample tracks, with its raw mean
and raw standard deviation vectors in closed form. -/
noncomputable def cxDna : Dna :=
  { playlistName := "Ex"
    trackCount := 3
    featureColumns := dnaFeatures
    scalerMean := colMean cxTracks
    scalerScale := scalerScaleOf cxTracks
    rawMean := cxMean
    rawStd := fun i => ((cxSigma i : ℚ) : ℝ)
    rawMin := colMin cxTracks
    rawMax := colMax cxTracks
    meanVector := normMean cxTracks
    covMatrix := regCov cxTracks
    invCovMatrix := (testLib.matInv (regCov cxTracks)).getD (testLib.pinv (regCov cxTracks))
    isolationForest :=
      { nEstimators := 100
        randomState := 42
        contamination := 1 / 10
        scoreSamples := testLib.isoScoreSamples 100 42 (1 / 10) (normalizedRows cxTracks) }
    explainedVariance :=
      testLib.pcaExplainedVariance (min 9 (cxTracks.length - 1)) (normalizedRows cxTracks)
    dimsFor90 :=
      countBelow 0.90 (cumsum (testLib.pcaExplainedVariance (min 9 (cxTracks.length - 1))
        (normalizedRows cxTracks))) + 1
    corrMatrix := normCorr cxTracks
    keyDistribution := valueCounts (cxTracks.map Track.key)
    modeDistribution := valueCounts (cxTracks.map Track.mode) }

theorem build_cx : build_playlist_dna testLib cxTracks "Ex" = .ok cxDna := by
  unfold build_playlist_dna
  rw [if_neg (by simp [cxTracks])]
  simp only [Except.ok.injEq]
  unfold cxDna
  simp only [Dna.mk.injEq, and_true, true_and, eq_self_iff_true]
  exact ⟨rfl, funext cxTracks_colMean, funext cxStd⟩

/-- The nine conviction values of the counterexample descriptor, as exact
rationals. -/
def cxConvQ (i : Fin 9) : ℚ :=
  max (max 0 (1 - cxSigma i / featureRange i * 3))
    (min (|cxMean i - baselineValue i| / featureRange i * 2.5) 1)

theorem cxDna_conviction (i : Fin 9) :
    convictionScore cxDna i = ((cxConvQ i : ℚ) : ℝ) := by
  unfold convictionScore tightnessScore identityScore cxConvQ
  have h1 : cxDna.rawStd i = ((cxSigma i : ℚ) : ℝ) := rfl
  have h2 : cxDna.rawMean i = cxMean i := rfl
  rw [h1, h2]
  push_cast
  norm_num

/-- The kind of gap claim C7 asserts cannot happen: a built descriptor whose
reported cohesion score differs from the rounding-free formula of the claim. -/
def cohesionGapAt (r : Except String Dna) : Prop :=
  match r with
  | .ok d => cohesion_score d ≠ cohesionOfClaim d
  | .error _ => False

/-- C7 counterexample: for the concrete three-track sample `cxTracks`, the
reported cohesion score of the built descriptor (1.0) differs from the value of
the claim formula computed without the intermediate three-decimal rounding
of the conviction values (1.1). -/
theorem cohesion_code_spec_gap :
    cohesionGapAt (build_playlist_dna testLib cxTracks "Ex") := by
  rw [build_cx]
  show cohesion_score cxDna ≠ cohesionOfClaim cxDna
  have hcode : cohesion_score cxDna =
      ((roundDecQ 1 ((∑ i, roundDecQ 3 (cxConvQ i)) / 9 * 100) : ℚ) : ℝ) := by
    rw [cohesion_score_eq_sum]
    have h1 : (∑ i, roundDec 3 (convictionScore cxDna i)) =
        ∑ i, ((roundDecQ 3 (cxConvQ i) : ℚ) : ℝ) :=
      Finset.sum_congr rfl fun i _ => by rw [cxDna_conviction i, roundDec_ratCast]
    rw [h1, ← Rat.cast_sum]
    have h2 : (((∑ i, roundDecQ 3 (cxConvQ i) : ℚ)) : ℝ) / 9 * 100 =
        (((∑ i, roundDecQ 3 (cxConvQ i)) / 9 * 100 : ℚ) : ℝ) := by
      push_cast
      ring
    rw [h2, roundDec_ratCast]
  have hspec : cohesionOfClaim cxDna =
      ((roundDecQ 1 ((∑ i, cxConvQ i) / 9 * 100) : ℚ) : ℝ) := by
    unfold cohesionOfClaim
    have h1 : (∑ i, convictionScore cxDna i) = ∑ i, ((cxConvQ i : ℚ) : ℝ) :=
      Finset.sum_congr rfl fun i _ => cxDna_conviction i
    rw [h1, ← Rat.cast_sum]
    have h2 : (((∑ i, cxConvQ i : ℚ)) : ℝ) / 9 * 100 =
        (((∑ i, cxConvQ i) / 9 * 100 : ℚ) : ℝ) := by
      push_cast
      ring
    rw [h2, roundDec_ratCast]
  rw [hcode, hspec]
  have hcv : ∀ i : Fin 9, cxConvQ i =
      (![457/5000, 1/2500, 1/2500, 1/2500, 1/2500, 1/2500, 1/2500, 1/2500, 1/2500] :
        Fin 9 → ℚ) i := by
    intro i
    fin_cases i <;> norm_num [cxConvQ, cxSigma, cxMean, featureRange, baselineValue, abs]
  have hs2 : (∑ i : Fin 9, cxConvQ i) = 473/5000 := by
    simp only [hcv]
    simp [Fin.sum_univ_succ]
    norm_num
  have hs1 : (∑ i : Fin 9, roundDecQ 3 (cxConvQ i)) = 91/1000 := by
    have h : ∀ i : Fin 9, roundDecQ 3 (cxConvQ i) =
        (![91/1000, 0, 0, 0, 0, 0, 0, 0, 0] : Fin 9 → ℚ) i := by
      intro i
      fin_cases i <;>
        norm_num [roundDecQ, round_eq, cxConvQ, cxSigma, cxMean, featureRange, baselineValue,
          abs]
    simp only [h]
    simp [Fin.sum_univ_succ]
  rw [hs1, hs2]
  intro heq
  have hq : roundDecQ 1 ((91 : ℚ)/1000 / 9 * 100) = roundDecQ 1 ((473 : ℚ)/5000 / 9 * 100) := by
    exact_mod_cast heq
  rw [show ((91 : ℚ)/1000 / 9 * 100) = 91/90 by norm_num,
    show ((473 : ℚ)/5000 / 9 * 100) = 473/450 by norm_num] at hq
  have hL : roundDecQ 1 ((91 : ℚ)/90) = 1 := by norm_num [roundDecQ, round_eq]
  have hR : roundDecQ 1 ((473 : ℚ)/450) = 11/10 := by norm_num [roundDecQ, round_eq]
  rw [hL, hR] at hq
  norm_num at hq

/-- C7 amended: the reported cohesion score equals the mean over the nine
features of the conviction values rounded to three decimals (as stored in the
conviction breakdown), times 100, rounded to one decimal — the claim holds
once the intermediate three-decimal rounding of conviction is accounted
for. -/
theorem cohesion_score_rounded_mean (d : Dna) :
    cohesion_score d = roundDec 1 ((∑ i, roundDec 3 (convictionScore d i)) / 9 * 100) :=
  cohesion_score_eq_sum d

/-! ## Claim C8: identical representative vectors in the Sonic Twin Matcher -/

/-- C8: a neighbor whose fetched representative vectors all coincide with the
target vector has average distance 0, and its similarity percentage —
`exp(-avg/100) * 100`, rounded to two decimals — is exactly 100. -/
theorem sonic_twin_identical_vector (target : Fin 9 → ℝ) (feats : List (Fin 9 → ℝ))
    (_hne : feats ≠ []) (hall : ∀ f ∈ feats, f = target) :
    avgDistanceOf target feats = 0 ∧
      similarityPctOf (avgDistanceOf target feats) = 100 := by
  have hmap : feats.map (euclidDist target) = feats.map fun _ => (0 : ℝ) := by
    apply List.map_congr_left
    intro f hf
    rw [hall f hf]
    unfold euclidDist
    simp
  have havg : avgDistanceOf target feats = 0 := by
    unfold avgDistanceOf
    rw [hmap]
    simp
  refine ⟨havg, ?_⟩
  rw [havg]
  unfold similarityPctOf roundDec
  norm_num

/-- The concrete target vector of the C8 witness. -/
def twinTarget : Fin 9 → ℝ := fun _ => 0

theorem sonic_twin_identical_vector_witness :
    avgDistanceOf twinTarget [twinTarget] = 0 ∧
      similarityPctOf (avgDistanceOf twinTarget [twinTarget]) = 100 :=
  sonic_twin_identical_vector twinTarget [twinTarget] (by simp) (by simp)

/-! ## Claim C10: empty neighborhood versus all neighbors skipped -/

/-- C10: with target track and features resolved, the matcher returns the
explicit no-neighbors error when the built neighborhood is empty, and a
successful result with an empty twin list and zero compared artists when
neighbors exist but every one is skipped. -/
theorem find_sonic_twins_empty_cases :
    (∀ (ta : String × String) (tf : Fin 9 → ℚ) (root : RawArtist)
        (search : String → Option (List RawArtist))
        (topT : String → Option (List (String × String)))
        (batch : List String → Option (List FeatEntry)) (tid : String) (topN : ℕ),
      (neighborhoodOf root search 20).neighbors = [] →
        find_sonic_twins (.ok ta) (.ok tf) (.ok root) search topT batch tid topN =
          .error "No neighboring artists found for comparison") ∧
    (∀ (ta : String × String) (tf : Fin 9 → ℚ) (root : RawArtist)
        (search : String → Option (List RawArtist))
        (topT : String → Option (List (String × String)))
        (batch : List String → Option (List FeatEntry)) (tid : String) (topN : ℕ),
      (neighborhoodOf root search 20).neighbors ≠ [] →
      (∀ a ∈ (neighborhoodOf root search 20).neighbors,
        processNeighbor (castVec tf) topT batch a = none) →
        find_sonic_twins (.ok ta) (.ok tf) (.ok root) search topT batch tid topN =
          .ok { targetName := ta.1, targetArtist := ta.2, trackId := tid,
                twins := [], totalCompared := 0 }) := by
  constructor
  · intro ta tf root search topT batch tid topN h
    simp [find_sonic_twins, build_artist_neighborhood, h]
  · intro ta tf root search topT batch tid topN hne hskip
    have hfm : (neighborhoodOf root search 20).neighbors.filterMap
        (processNeighbor (castVec tf) topT batch) = [] :=
      List.filterMap_eq_nil_iff.mpr hskip
    have hie : (neighborhoodOf root search 20).neighbors.isEmpty = false :=
      List.isEmpty_eq_false.mpr hne
    simp [find_sonic_twins, build_artist_neighborhood, hie, hfm, List.mergeSort_nil]

/-- The root artist of the C10 witness. -/
def twRootA : RawArtist :=
  { id := "r", name := "X", genres := ["x"], popularity := 50, followers := 0, image := none }

/-- The single neighbor artist surfaced by the C10 witness provider. -/
def twArtistB : RawArtist :=
  { id := "a", name := "A", genres := [], popularity := 50, followers := 0, image := none }

/-- A provider answering every query with the single artist `twArtistB`. -/
def twSearch : String → Option (List RawArtist) := fun _ => some [twArtistB]

theorem foldl_processQuery_noSearch (g : List String) (p : ℤ) (qs : List String) :
    ∀ st : CrawlState, qs.foldl (processQuery (fun _ => none) g p) st = st := by
  induction qs with
  | nil => intro st; rfl
  | cons q rest ih => intro st; exact ih st

theorem crawlStateOf_noSearch (root : RawArtist) :
    (crawlStateOf root fun _ => none) = { seen := [root.id], found := [] } := by
  unfold crawlStateOf
  exact foldl_processQuery_noSearch _ _ _ _

theorem find_sonic_twins_empty_cases_witness :
    (find_sonic_twins (.ok ("T", "B")) (.ok fun _ => 0) (.ok twRootA) (fun _ => none)
        (fun _ => none) (fun _ => none) "t1" 5 =
      .error "No neighboring artists found for comparison") ∧
    (find_sonic_twins (.ok ("T", "B")) (.ok fun _ => 0) (.ok twRootA) twSearch
        (fun _ => none) (fun _ => none) "t1" 5 =
      .ok { targetName := "T", targetArtist := "B", trackId := "t1",
            twins := [], totalCompared := 0 }) := by
  constructor
  · refine find_sonic_twins_empty_cases.1 ("T", "B") (fun _ => 0) twRootA (fun _ => none)
      (fun _ => none) (fun _ => none) "t1" 5 ?_
    simp [neighborhoodOf, crawlStateOf_noSearch, List.mergeSort_nil]
  · have hlen : (crawlStateOf twRootA twSearch).found.length = 1 := by decide
    have hn : (neighborhoodOf twRootA twSearch 20).neighbors.length = 1 := by
      simp [neighborhoodOf, List.length_mergeSort, List.length_take, hlen]
    refine find_sonic_twins_empty_cases.2 ("T", "B") (fun _ => 0) twRootA twSearch
      (fun _ => none) (fun _ => none) "t1" 5 ?_ ?_
    · intro h
      rw [h] at hn
      simp at hn
    · intro a _
      rfl

end Algorhythm
